import Mathlib

/-!
Verification development for the hex-blueprints run-lifecycle client.

The two entry points are shallowly embedded from
`src/hex_blueprints/run_project.py` (namespace `run_project`) and
`src/hex_blueprints/check_run_status.py` (namespace `check_run_status`).
HTTP exchanges are passed in explicitly: a call site receives
`Option (HttpResp β)` where `none` models the request itself raising a
transport exception (DNS, TLS, timeout, connection refused) and
`some r` with `r.body = none` models a response whose body is not JSON
(`response.json()` raises).  Python control effects are reified in
`PyResult`: `ok` a normal return value, `exited c` a `sys.exit(c)`, and
`error e` an uncaught Python exception of class `e` (which terminates
the interpreter with process status 1).
-/

namespace ec

/-- Modelled from the spec: the module `exit_codes.py` is imported by both
scripts (`import exit_codes as ec`) but is not part of the source tree.
Per the spec (section 4.6) the numeric values are illustrative rather than
contractual; the constants are required to be mutually distinct non-zero
integers.  The concrete values below realise exactly that requirement
(values above 100 are chosen so that none coincides with Python's exit
status 1 for an uncaught exception or 0 for a normal return). -/
def EXIT_CODE_INVALID_PROJECT_ID : Nat := 101

/-- Modelled from the spec: see `EXIT_CODE_INVALID_PROJECT_ID`. -/
def EXIT_CODE_AUTHENTICATION_ERROR : Nat := 102

/-- Modelled from the spec: see `EXIT_CODE_INVALID_PROJECT_ID`. -/
def EXIT_CODE_UNKNOWN_ERROR : Nat := 103

/-- Modelled from the spec: see `EXIT_CODE_INVALID_PROJECT_ID`. -/
def EXIT_CODE_BAD_REQUEST : Nat := 104

/-- Modelled from the spec: see `EXIT_CODE_INVALID_PROJECT_ID`. -/
def EXIT_CODE_EXCESSIVE_REQUESTS : Nat := 105

/-- Modelled from the spec: see `EXIT_CODE_INVALID_PROJECT_ID`. -/
def EXIT_CODE_HEX_SERVER_ERROR : Nat := 106

/-- Modelled from the spec: see `EXIT_CODE_INVALID_PROJECT_ID`. -/
def EXIT_CODE_PENDING : Nat := 107

/-- Modelled from the spec: see `EXIT_CODE_INVALID_PROJECT_ID`. -/
def EXIT_CODE_RUNNING : Nat := 108

/-- Modelled from the spec: see `EXIT_CODE_INVALID_PROJECT_ID`. -/
def EXIT_CODE_ERRORED : Nat := 109

/-- Modelled from the spec: see `EXIT_CODE_INVALID_PROJECT_ID`. -/
def EXIT_CODE_COMPLETED : Nat := 110

/-- Modelled from the spec: see `EXIT_CODE_INVALID_PROJECT_ID`. -/
def EXIT_CODE_KILLED : Nat := 111

/-- Modelled from the spec: see `EXIT_CODE_INVALID_PROJECT_ID`. -/
def EXIT_CODE_UNABLE_TO_ALLOCATE_KERNEL : Nat := 112

end ec

/-- Character class `[0-9a-fA-F]` of the UUID pattern. -/
def isHexChar (c : Char) : Bool :=
  (('0' ≤ c) && (c ≤ '9')) || (('a' ≤ c) && (c ≤ 'f')) || (('A' ≤ c) && (c ≤ 'F'))

/-- Consume exactly `n` characters of the class `[0-9a-fA-F]`
(the `{n}` quantifier of the pattern), returning the rest of the input. -/
def takeHexN : Nat → List Char → Option (List Char)
  | 0, l => some l
  | _ + 1, [] => none
  | n + 1, c :: l => if isHexChar c then takeHexN n l else none

/-- Consume one literal character of the pattern. -/
def takeLit (c : Char) : List Char → Option (List Char)
  | [] => none
  | d :: l => if d = c then some l else none

/-- Consume one character of the variant class `[89ABab]` of the pattern. -/
def takeVariant : List Char → Option (List Char)
  | [] => none
  | d :: l =>
    if d = '8' || d = '9' || d = 'A' || d = 'B' || d = 'a' || d = 'b' then some l
    else none

/-- Transliteration of the body of the project-id pattern compiled in both
scripts:
`[0-9a-fA-F]{8}-[0-9a-fA-F]{4}-4[0-9a-fA-F]{3}-[89ABab][0-9a-fA-F]{3}-[0-9a-fA-F]{12}`.
Consumes the pattern body from the front of the input and returns the
unconsumed suffix. -/
def matchUUIDBody (l : List Char) : Option (List Char) :=
  (takeHexN 8 l).bind fun l1 =>
  (takeLit '-' l1).bind fun l2 =>
  (takeHexN 4 l2).bind fun l3 =>
  (takeLit '-' l3).bind fun l4 =>
  (takeLit '4' l4).bind fun l5 =>
  (takeHexN 3 l5).bind fun l6 =>
  (takeLit '-' l6).bind fun l7 =>
  (takeVariant l7).bind fun l8 =>
  (takeHexN 3 l8).bind fun l9 =>
  (takeLit '-' l9).bind fun l10 =>
  takeHexN 12 l10

/-- Embedding of `is_valid_uuid` from `run_project.py` (the same pattern is
compiled inline by `get_run_status` in `check_run_status.py`):
`bool(UUID_PATTERN.match(s))` where the pattern is anchored `^...$`.
`re.match` anchors at position 0; with MULTILINE off, Python's `$`
matches at the end of the string or just before a newline that ends the
string, so the unconsumed suffix may be either empty or a single
final newline. -/
def is_valid_uuid (s : String) : Bool :=
  match matchUUIDBody s.data with
  | some rest => rest == [] || rest == ['\n']
  | none => false

/-- Comparison definition following the words of the spec (sections 3 and
8): the validator is claimed to succeed exactly when the whole string is an
8-4-4-4-12 hex-digit UUID with the version nibble `4` and the variant
nibble in `[89ABab]` — an exact match, with no extra leading or trailing
characters. -/
def uuidV4ExactMatch (s : String) : Bool :=
  match matchUUIDBody s.data with
  | some rest => rest == []
  | none => false

/-- A consumer `f` splits: whenever it succeeds on `l` leaving `r`, the
consumed prefix is determined and `f` succeeds on that prefix followed by
anything, leaving that anything. -/
def Splits (f : List Char → Option (List Char)) : Prop :=
  ∀ l r, f l = some r → ∃ p, l = p ++ r ∧ ∀ x, f (p ++ x) = some x

theorem takeHexN_splits (n : Nat) : Splits (takeHexN n) := by
  induction n with
  | zero =>
    intro l r h
    simp only [takeHexN, Option.some.injEq] at h
    refine ⟨[], by simp [h], ?_⟩
    intro x; simp [takeHexN]
  | succ n ih =>
    intro l r h
    match l with
    | [] => simp [takeHexN] at h
    | c :: l' =>
      by_cases hc : isHexChar c
      · simp only [takeHexN, hc, if_true] at h
        obtain ⟨p, hp, hall⟩ := ih l' r h
        refine ⟨c :: p, by simp [hp], ?_⟩
        intro x
        simp [takeHexN, hc, hall x]
      · simp [takeHexN, hc] at h

theorem takeLit_splits (c : Char) : Splits (takeLit c) := by
  intro l r h
  match l with
  | [] => simp [takeLit] at h
  | d :: l' =>
    by_cases hd : d = c
    · simp only [takeLit, hd, if_true, Option.some.injEq] at h
      refine ⟨[c], by simp [hd, h], ?_⟩
      intro x; simp [takeLit]
    · simp [takeLit, hd] at h

theorem takeVariant_splits : Splits takeVariant := by
  intro l r h
  match l with
  | [] => simp [takeVariant] at h
  | d :: l' =>
    by_cases hd : (d = '8' || d = '9' || d = 'A' || d = 'B' || d = 'a' || d = 'b') = true
    · simp only [takeVariant, hd, if_true, Option.some.injEq] at h
      refine ⟨[d], by simp [h], ?_⟩
      intro x; simp [takeVariant, hd]
    · rw [takeVariant] at h
      rw [if_neg hd] at h
      exact absurd h (by simp)

theorem splits_comp {f g : List Char → Option (List Char)}
    (hf : Splits f) (hg : Splits g) : Splits (fun l => (f l).bind g) := by
  intro l r h
  change (f l).bind g = some r at h
  cases hfl : f l with
  | none => rw [hfl] at h; simp at h
  | some m =>
    rw [hfl] at h
    change g m = some r at h
    obtain ⟨p1, hp1, ha1⟩ := hf l m hfl
    obtain ⟨p2, hp2, ha2⟩ := hg m r h
    refine ⟨p1 ++ p2, ?_, ?_⟩
    · rw [hp1, hp2, List.append_assoc]
    · intro x
      have hfx : f ((p1 ++ p2) ++ x) = some (p2 ++ x) := by
        rw [List.append_assoc]; exact ha1 (p2 ++ x)
      change (f ((p1 ++ p2) ++ x)).bind g = some x
      rw [hfx]
      change g (p2 ++ x) = some x
      exact ha2 x

theorem matchUUIDBody_splits : Splits matchUUIDBody :=
  splits_comp (takeHexN_splits 8) <|
  splits_comp (takeLit_splits '-') <|
  splits_comp (takeHexN_splits 4) <|
  splits_comp (takeLit_splits '-') <|
  splits_comp (takeLit_splits '4') <|
  splits_comp (takeHexN_splits 3) <|
  splits_comp (takeLit_splits '-') <|
  splits_comp takeVariant_splits <|
  splits_comp (takeHexN_splits 3) <|
  splits_comp (takeLit_splits '-') (takeHexN_splits 12)

/-- The ASCII whitespace characters recognised by Python's
`str.isspace()` and hence stripped by `str.strip()`: space, tab, line
feed, vertical tab, form feed, carriage return.  (Python additionally
strips non-ASCII Unicode whitespace; those characters are outside the
input alphabet modelled here.) -/
def pyIsSpace (c : Char) : Bool :=
  c = ' ' || c = '\t' || c = '\n' || c = '\x0b' || c = '\x0c' || c = '\r'

/-- Embedding of Python's `str.strip()` with no argument, as applied to the
command-line flag values in both `main` functions: remove leading and
trailing whitespace characters. -/
def pyStrip (s : String) : String :=
  ⟨((s.data.dropWhile pyIsSpace).reverse.dropWhile pyIsSpace).reverse⟩

/-- Embedding of Python's `str.upper()`, as applied to the
`--wait-for-completion` flag value. -/
def pyUpper (s : String) : String :=
  ⟨s.data.map Char.toUpper⟩

/-- Reified Python control flow of one call: a normal return, a
`sys.exit(code)`, or an uncaught Python exception (named by its class),
which terminates the interpreter with process status 1. -/
inductive PyResult (α : Type) where
  | ok (a : α)
  | exited (code : Nat)
  | error (exc : String)
deriving DecidableEq, Repr

/-- An HTTP response as the `requests` library delivers it: the numeric
status code, and `body = some j` when `response.json()` parses to `j`,
`body = none` when the payload is not JSON (so `response.json()` raises). -/
structure HttpResp (β : Type) where
  status_code : Nat
  body : Option β
deriving DecidableEq, Repr

/-- Parsed JSON body of a successful status poll: the fields the scripts
read from it (`status`, `endTime`, `runId`).  `endTime` is nullable. -/
structure StatusBody where
  status : String
  endTime : Option String
  runId : String
deriving DecidableEq, Repr

/-- Utility class defined identically in both scripts: an HTTP status code
together with the parsed JSON response.  Trigger-side JSON bodies are
modelled as string-keyed dictionaries with string values. -/
structure HexResponse where
  status_code : Nat
  response_json : List (String × String)
deriving DecidableEq, Repr

namespace run_project

/-- Helper from `run_project.py`: an error response carries a usable
`reason` exactly when the parsed body is a non-empty dict that has
`reason` among its keys.  (The source also tests `response is not None`,
after `len(response) > 0`; a parsed dict is never `None` here.) -/
def has_reason (response : List (String × String)) : Bool :=
  decide (response.length > 0) && (response.lookup "reason").isSome

/-- `handle_api_response` from `run_project.py`: 201 passes the body
through; 401, 404 and 422 keep the body when `has_reason` holds and
otherwise degrade to the unknown-error response; every other status code
degrades to the unknown-error response immediately (its body, including
any `reason` it carries, is never inspected). -/
def handle_api_response (status_code : Nat) (response_json : List (String × String)) :
    HexResponse :=
  if status_code = 201 then ⟨status_code, response_json⟩
  else if status_code = 401 ∨ status_code = 404 ∨ status_code = 422 then
    if has_reason response_json then ⟨status_code, response_json⟩
    else ⟨ec.EXIT_CODE_UNKNOWN_ERROR, [("reason", "unknown")]⟩
  else ⟨ec.EXIT_CODE_UNKNOWN_ERROR, [("reason", "unknown")]⟩

/-- The dynamically-typed return value of `run_project`: either a bare
exit-code integer (the invalid-project-id path) or a `HexResponse`. -/
inductive RunRet where
  | code (n : Nat)
  | resp (r : HexResponse)
deriving DecidableEq, Repr

/-- `run_project` from `run_project.py`.  `resp = none` models the POST
itself raising; `some r` with `r.body = none` models a non-JSON reply, in
which case `response.json()` raises inside the `try`.  The success print
also runs inside the `try` and subscripts
`hex_response.response_json['runId']`, so a 201 reply whose body lacks a
`runId` key raises `KeyError` there.  All three exceptions are caught by
the blanket `except Exception` handler, which calls
`sys.exit(ec.EXIT_CODE_AUTHENTICATION_ERROR)`.  On an invalid project id
the function returns the bare integer `ec.EXIT_CODE_INVALID_PROJECT_ID`
without touching the network. -/
def run_project (project_id api_token : String)
    (resp : Option (HttpResp (List (String × String)))) : PyResult RunRet :=
  if ¬ is_valid_uuid project_id then .ok (.code ec.EXIT_CODE_INVALID_PROJECT_ID)
  else
    match resp with
    | none => .exited ec.EXIT_CODE_AUTHENTICATION_ERROR
    | some r =>
      match r.body with
      | none => .exited ec.EXIT_CODE_AUTHENTICATION_ERROR
      | some j =>
        let hex_response := handle_api_response r.status_code j
        if hex_response.status_code = 201 then
          match hex_response.response_json.lookup "runId" with
          | none => .exited ec.EXIT_CODE_AUTHENTICATION_ERROR
          | some _ => .ok (.resp hex_response)
        else .ok (.resp hex_response)

/-- The dynamically-typed return value of `get_run_status` in
`run_project.py`: the parsed body on HTTP 200, a bare exit-code integer on
anything else. -/
inductive PollRet where
  | dict (b : StatusBody)
  | code (n : Nat)
deriving DecidableEq, Repr

/-- `get_run_status` from `run_project.py`: validates the project id
(returning the bare invalid-id code), parses the body before looking at
the status code, returns the body on 200, and returns the bare integer
`ec.EXIT_CODE_UNKNOWN_ERROR` for every other status code (401, 404, 429
and 500 only differ in the printed message).  A raised request or a
non-JSON body is caught and yields the bare authentication-error code. -/
def get_run_status (project_id api_token : String)
    (resp : Option (HttpResp StatusBody)) : PollRet :=
  if ¬ is_valid_uuid project_id then .code ec.EXIT_CODE_INVALID_PROJECT_ID
  else
    match resp with
    | none => .code ec.EXIT_CODE_AUTHENTICATION_ERROR
    | some r =>
      match r.body with
      | none => .code ec.EXIT_CODE_AUTHENTICATION_ERROR
      | some b =>
        if r.status_code = 200 then .dict b
        else .code ec.EXIT_CODE_UNKNOWN_ERROR

/-- `determine_run_status` from `run_project.py`, applied to a parsed
(dict) response: looks up the vendor status string in the literal
`status_messages` dict, defaulting to `ec.EXIT_CODE_UNKNOWN_ERROR`. -/
def determine_run_status (b : StatusBody) : Nat :=
  if b.status = "COMPLETED" then ec.EXIT_CODE_COMPLETED
  else if b.status = "KILLED" then ec.EXIT_CODE_KILLED
  else if b.status = "PENDING" then ec.EXIT_CODE_PENDING
  else if b.status = "RUNNING" then ec.EXIT_CODE_RUNNING
  else if b.status = "UNABLE_TO_ALLOCATE_KERNEL" then ec.EXIT_CODE_UNABLE_TO_ALLOCATE_KERNEL
  else if b.status = "ERRORED" then ec.EXIT_CODE_ERRORED
  else ec.EXIT_CODE_UNKNOWN_ERROR

/-- The dynamically-typed call `determine_run_status(response)` made by
`main`: when `get_run_status` returned a bare integer, the subscript
`run_response['status']` raises `TypeError` (ints are not subscriptable);
when it returned a dict, the lookup succeeds. -/
def determine_run_status_dyn : PollRet → PyResult Nat
  | .code _ => .error "TypeError"
  | .dict b => .ok (determine_run_status b)

/-- Result of the wait loop in `main`: `result = none` means the supplied
script of poll responses was exhausted while the run was still
`PENDING`/`RUNNING` (the real loop would keep polling); `sleepTime` is the
total time spent in `time.sleep`, `pollsUsed` the number of polls issued
by the loop. -/
structure LoopOut where
  result : Option (PyResult Nat)
  sleepTime : Nat
  pollsUsed : Nat
deriving DecidableEq, Repr

/-- The `while status_exit_code in (ec.EXIT_CODE_RUNNING, ec.EXIT_CODE_PENDING)`
loop of `main` in `run_project.py`, starting from the exit code `c` of the
previous iteration and consuming one scripted poll response per
iteration.  Each iteration sleeps 60 seconds, polls, and re-classifies;
a `TypeError` raised while classifying a non-dict poll result propagates
out of the loop. -/
def wait_loop (project_id api_token : String) :
    Nat → List (Option (HttpResp StatusBody)) → LoopOut
  | c, [] =>
    if c = ec.EXIT_CODE_RUNNING ∨ c = ec.EXIT_CODE_PENDING then ⟨none, 0, 0⟩
    else ⟨some (.ok c), 0, 0⟩
  | c, p :: rest =>
    if c = ec.EXIT_CODE_RUNNING ∨ c = ec.EXIT_CODE_PENDING then
      match determine_run_status_dyn (get_run_status project_id api_token p) with
      | .ok c' =>
        let t := wait_loop project_id api_token c' rest
        ⟨t.result, t.sleepTime + 60, t.pollsUsed + 1⟩
      | .exited cd => ⟨some (.exited cd), 60, 1⟩
      | .error m => ⟨some (.error m), 60, 1⟩
    else ⟨some (.ok c), 0, 0⟩

/-- Everything observable about one invocation of `main` in
`run_project.py`: what was pickled into the artifact store, the reified
control-flow result of the `main()` call (payload: the value `main`
returns, `none` when it falls off the end), and the loop instrumentation. -/
structure MainOut where
  runIdSaved : Option String
  reasonSaved : Option String
  result : Option (PyResult (Option Nat))
  sleepTime : Nat
  pollsUsed : Nat
deriving DecidableEq, Repr

/-- Lift the wait loop's result to the payload type of `main`. -/
def liftLoop : PyResult Nat → PyResult (Option Nat)
  | .ok c => .ok (some c)
  | .exited c => .exited c
  | .error m => .error m

/-- `main` from `run_project.py`.  The command-line arguments are the
three flags; `trigResp` scripts the trigger POST and `polls` scripts the
successive status GETs.  Faithful details: the arguments are stripped;
`trigger_run.status_code` raises `AttributeError` when `run_project`
returned a bare integer; `run_id` is assigned only in the 201 branch and
reading it in the wait branch otherwise raises `UnboundLocalError`;
`main` returns `None` unless the wait branch runs, and no caller passes
its return value to `sys.exit`. -/
def main (project_id api_token wait_for_completion : String)
    (trigResp : Option (HttpResp (List (String × String))))
    (polls : List (Option (HttpResp StatusBody))) : MainOut :=
  let pid := pyStrip project_id
  let tok := pyStrip api_token
  match run_project pid tok trigResp with
  | .exited c => ⟨none, none, some (.exited c), 0, 0⟩
  | .error m => ⟨none, none, some (.error m), 0, 0⟩
  | .ok ret =>
    match ret with
    | .code _ => ⟨none, none, some (.error "AttributeError"), 0, 0⟩
    | .resp hr =>
      if hr.status_code = 201 then
        match hr.response_json.lookup "runId" with
        | none => ⟨none, none, some (.error "KeyError"), 0, 0⟩
        | some rid =>
          if pyUpper wait_for_completion = "TRUE" then
            match polls with
            | [] => ⟨some rid, none, none, 0, 0⟩
            | p :: rest =>
              match determine_run_status_dyn (get_run_status pid tok p) with
              | .ok c0 =>
                let t := wait_loop pid tok c0 rest
                ⟨some rid, none, t.result.map liftLoop, t.sleepTime, t.pollsUsed + 1⟩
              | .exited cd => ⟨some rid, none, some (.exited cd), 0, 1⟩
              | .error m => ⟨some rid, none, some (.error m), 0, 1⟩
          else ⟨some rid, none, some (.ok none), 0, 0⟩
      else
        match hr.response_json.lookup "reason" with
        | none => ⟨none, none, some (.error "KeyError"), 0, 0⟩
        | some rsn =>
          if pyUpper wait_for_completion = "TRUE" then
            ⟨none, some rsn, some (.error "UnboundLocalError"), 0, 0⟩
          else ⟨none, some rsn, some (.ok none), 0, 0⟩

/-- The process exit status of `python run_project.py`: the module-level
call is a bare `main()`, so a normal return exits 0 (the return value is
discarded), a `sys.exit(c)` exits `c`, and an uncaught exception exits 1. -/
def processExit : PyResult (Option Nat) → Nat
  | .ok _ => 0
  | .exited c => c
  | .error _ => 1

end run_project

namespace check_run_status

/-- `get_run_status` from `check_run_status.py`: validates the project id
against the inline-compiled pattern (identical to `is_valid_uuid`) and
calls `sys.exit(ec.EXIT_CODE_INVALID_PROJECT_ID)` on failure; parses the
body before dispatching on the status code; exits with a per-status code
for 404, 429, 401 and 500, returns the body on 200, and exits with the
unknown-error code otherwise.  A raised request or a non-JSON body is
caught by the blanket `except Exception` handler, which exits with the
authentication-error code (`sys.exit` itself raises `SystemExit`, which
`except Exception` does not catch, so the dedicated exits pass through). -/
def get_run_status (project_id api_token run_id : String)
    (resp : Option (HttpResp StatusBody)) : PyResult StatusBody :=
  if ¬ is_valid_uuid project_id then .exited ec.EXIT_CODE_INVALID_PROJECT_ID
  else
    match resp with
    | none => .exited ec.EXIT_CODE_AUTHENTICATION_ERROR
    | some r =>
      match r.body with
      | none => .exited ec.EXIT_CODE_AUTHENTICATION_ERROR
      | some b =>
        if r.status_code = 404 then .exited ec.EXIT_CODE_BAD_REQUEST
        else if r.status_code = 429 then .exited ec.EXIT_CODE_EXCESSIVE_REQUESTS
        else if r.status_code = 401 then .exited ec.EXIT_CODE_AUTHENTICATION_ERROR
        else if r.status_code = 500 then .exited ec.EXIT_CODE_HEX_SERVER_ERROR
        else if r.status_code = 200 then .ok b
        else .exited ec.EXIT_CODE_UNKNOWN_ERROR

/-- `determine_run_status` from `check_run_status.py`: the if/elif chain
over the vendor status string, falling through to the unknown-error code.
Note the source's `ERRORED` branch returns `ec.EXIT_CODE_RUNNING`, not
`ec.EXIT_CODE_ERRORED`. -/
def determine_run_status (b : StatusBody) : Nat :=
  if b.status = "PENDING" then ec.EXIT_CODE_PENDING
  else if b.status = "RUNNING" then ec.EXIT_CODE_RUNNING
  else if b.status = "ERRORED" then ec.EXIT_CODE_RUNNING
  else if b.status = "COMPLETED" then ec.EXIT_CODE_COMPLETED
  else if b.status = "KILLED" then ec.EXIT_CODE_KILLED
  else if b.status = "UNABLE_TO_ALLOCATE_KERNEL" then ec.EXIT_CODE_UNABLE_TO_ALLOCATE_KERNEL
  else ec.EXIT_CODE_UNKNOWN_ERROR

/-- `main` from `check_run_status.py`: strips the id and token, takes the
run id from the command line when that flag is a non-empty (truthy)
string and from the pickled artifact store otherwise, fetches the status
(any `sys.exit` inside `get_run_status` propagates), classifies it, and
ends with `sys.exit(status_exit_code)` — this entry point never returns
normally. -/
def main (project_id api_token : String) (run_id_arg : Option String)
    (stored_run_id : String) (resp : Option (HttpResp StatusBody)) : PyResult Unit :=
  let pid := pyStrip project_id
  let tok := pyStrip api_token
  let rid := match run_id_arg with
    | some s => if s ≠ "" then pyStrip s else stored_run_id
    | none => stored_run_id
  match get_run_status pid tok rid resp with
  | .exited c => .exited c
  | .error m => .error m
  | .ok b => .exited (determine_run_status b)

/-- The process exit status of `python check_run_status.py`: `main` always
leaves via `sys.exit`; an uncaught exception would exit 1; a plain return
would exit 0. -/
def processExit : PyResult Unit → Nat
  | .ok _ => 0
  | .exited c => c
  | .error _ => 1

end check_run_status

/-- The members of the required outcome set of spec section 4.6: the seven
outcome kinds (with local validation failure as `invalidIdentifier`) and
the seven run statuses. -/
inductive ExitKey where
  | invalidIdentifier
  | unauthorized
  | notFound
  | rateLimited
  | serverError
  | unknownOutcome
  | transportFailure
  | stPENDING
  | stRUNNING
  | stERRORED
  | stCOMPLETED
  | stKILLED
  | stUNABLE_TO_ALLOCATE_KERNEL
  | stUNKNOWN
deriving DecidableEq, Fintype, Repr

/-- The vendor status string carried by each status member of `ExitKey`
(`stUNKNOWN` stands for any string outside the closed set; one concrete
representative is used). -/
def ExitKey.statusString : ExitKey → Option String
  | .stPENDING => some "PENDING"
  | .stRUNNING => some "RUNNING"
  | .stERRORED => some "ERRORED"
  | .stCOMPLETED => some "COMPLETED"
  | .stKILLED => some "KILLED"
  | .stUNABLE_TO_ALLOCATE_KERNEL => some "UNABLE_TO_ALLOCATE_KERNEL"
  | .stUNKNOWN => some "WEIRD_NEW_STATE"
  | _ => none

/-- The exit code the program assigns to each member of the required
outcome set.  Outcome kinds are read off the `sys.exit`/return sites:
invalid id from both validation branches; 401, 404, 429 and 500 from the
per-status branches of `get_run_status` in `check_run_status.py`; the
unknown outcome from the fall-through branches of both scripts; transport
failure from the two blanket `except Exception` handlers, which use
`ec.EXIT_CODE_AUTHENTICATION_ERROR`.  Run statuses go through
`determine_run_status` of `run_project.py` (the trigger flow); the
status-check flow differs on `ERRORED`, which is recorded separately. -/
def assignedCode : ExitKey → Nat
  | .invalidIdentifier => ec.EXIT_CODE_INVALID_PROJECT_ID
  | .unauthorized => ec.EXIT_CODE_AUTHENTICATION_ERROR
  | .notFound => ec.EXIT_CODE_BAD_REQUEST
  | .rateLimited => ec.EXIT_CODE_EXCESSIVE_REQUESTS
  | .serverError => ec.EXIT_CODE_HEX_SERVER_ERROR
  | .unknownOutcome => ec.EXIT_CODE_UNKNOWN_ERROR
  | .transportFailure => ec.EXIT_CODE_AUTHENTICATION_ERROR
  | .stPENDING => run_project.determine_run_status ⟨"PENDING", none, ""⟩
  | .stRUNNING => run_project.determine_run_status ⟨"RUNNING", none, ""⟩
  | .stERRORED => run_project.determine_run_status ⟨"ERRORED", none, ""⟩
  | .stCOMPLETED => run_project.determine_run_status ⟨"COMPLETED", none, ""⟩
  | .stKILLED => run_project.determine_run_status ⟨"KILLED", none, ""⟩
  | .stUNABLE_TO_ALLOCATE_KERNEL => run_project.determine_run_status ⟨"UNABLE_TO_ALLOCATE_KERNEL", none, ""⟩
  | .stUNKNOWN => run_project.determine_run_status ⟨"WEIRD_NEW_STATE", none, ""⟩

/-- A concrete well-formed project id, used by counterexamples and
witnesses. -/
def sampleProjectId : String := "550e8400-e29b-41d4-a716-446655440000"

/-- Agreement of `assignedCode` with the status-check flow: the 401 branch
of `get_run_status` in `check_run_status.py` exits with the code assigned
to `unauthorized`, and its `except` branch (transport failure) exits with
the code assigned to `transportFailure`. -/
theorem assignedCode_agrees_with_status_flow :
    check_run_status.get_run_status sampleProjectId "t" "r"
        (some ⟨401, some ⟨"", none, ""⟩⟩) = .exited (assignedCode .unauthorized) ∧
    check_run_status.get_run_status sampleProjectId "t" "r" none
        = .exited (assignedCode .transportFailure) ∧
    check_run_status.get_run_status sampleProjectId "t" "r"
        (some ⟨404, some ⟨"", none, ""⟩⟩) = .exited (assignedCode .notFound) ∧
    check_run_status.get_run_status sampleProjectId "t" "r"
        (some ⟨429, some ⟨"", none, ""⟩⟩) = .exited (assignedCode .rateLimited) ∧
    check_run_status.get_run_status sampleProjectId "t" "r"
        (some ⟨500, some ⟨"", none, ""⟩⟩) = .exited (assignedCode .serverError) := by
  refine ⟨?_, ?_, ?_, ?_, ?_⟩ <;> decide

/-- Agreement of `assignedCode` with the trigger flow: `run_project`
returns the `invalidIdentifier` code on a malformed id, and its `except`
branch (transport failure) exits with the `transportFailure` code. -/
theorem assignedCode_agrees_with_trigger_flow :
    run_project.run_project "not-a-uuid" "t" none
        = .ok (.code (assignedCode .invalidIdentifier)) ∧
    run_project.run_project sampleProjectId "t" none
        = .exited (assignedCode .transportFailure) := by
  exact ⟨by decide, by decide⟩

/-- C1 counterexample.  The claim says a transport-level failure is
classified as a distinct TransportFailure kind, not as the Unauthorized
outcome or its exit code.  At the concrete input "request raises" (`none`)
both flows exit with `ec.EXIT_CODE_AUTHENTICATION_ERROR` — exactly the
code the status-check flow uses for an HTTP 401 Unauthorized reply — so
the claim is false on the code. -/
theorem C1_transport_counterexample :
    run_project.run_project sampleProjectId "tok" none
      = .exited ec.EXIT_CODE_AUTHENTICATION_ERROR ∧
    check_run_status.get_run_status sampleProjectId "tok" "r1" none
      = .exited ec.EXIT_CODE_AUTHENTICATION_ERROR ∧
    check_run_status.get_run_status sampleProjectId "tok" "r1"
        (some ⟨401, some ⟨"", none, ""⟩⟩)
      = .exited ec.EXIT_CODE_AUTHENTICATION_ERROR := by
  refine ⟨by decide, by decide, by decide⟩

/-- C1 amended.  For every well-formed project id, every transport-level
failure (request raised, or non-JSON body) in either flow is caught by the
blanket `except Exception` handler and exits with the authentication-error
code — the same code assigned to the Unauthorized outcome; no distinct
TransportFailure kind exists in the program. -/
theorem C1_transport_conflated_with_auth (pid tok rid : String)
    (r : HttpResp (List (String × String))) (rs : HttpResp StatusBody)
    (h : is_valid_uuid pid = true) (hb : r.body = none) (hbs : rs.body = none) :
    run_project.run_project pid tok none
      = .exited ec.EXIT_CODE_AUTHENTICATION_ERROR ∧
    run_project.run_project pid tok (some r)
      = .exited ec.EXIT_CODE_AUTHENTICATION_ERROR ∧
    check_run_status.get_run_status pid tok rid none
      = .exited ec.EXIT_CODE_AUTHENTICATION_ERROR ∧
    check_run_status.get_run_status pid tok rid (some rs)
      = .exited ec.EXIT_CODE_AUTHENTICATION_ERROR ∧
    assignedCode .transportFailure = assignedCode .unauthorized := by
  refine ⟨?_, ?_, ?_, ?_, by decide⟩
  · simp [run_project.run_project, h]
  · simp [run_project.run_project, h, hb]
  · simp [check_run_status.get_run_status, h]
  · simp [check_run_status.get_run_status, h, hbs]

/-- C1 witness: the amended theorem applied at a concrete valid id and a
concrete non-JSON 500 reply. -/
theorem C1_transport_conflated_with_auth_witness :
    run_project.run_project sampleProjectId "tok" (some ⟨500, none⟩)
      = .exited ec.EXIT_CODE_AUTHENTICATION_ERROR :=
  (C1_transport_conflated_with_auth sampleProjectId "tok" "r1"
    ⟨500, none⟩ ⟨500, none⟩ (by decide) rfl rfl).2.1

/-- C2 counterexample.  The exit-code mapping is not injective on the
required outcome set: the distinct members TransportFailure and
Unauthorized are assigned the same code. -/
theorem C2_not_injective_counterexample :
    assignedCode .transportFailure = assignedCode .unauthorized ∧
    ExitKey.transportFailure ≠ ExitKey.unauthorized := by decide

/-- C2 amended.  The mapping is injective, with all codes non-zero, on the
required set minus TransportFailure and the UNKNOWN run status;
TransportFailure collides with Unauthorized, the UNKNOWN run status
collides with the Unknown outcome, and in the status-check flow the
`ERRORED` branch of `determine_run_status` additionally returns the
RUNNING code. -/
theorem C2_injective_outside_collisions :
    (∀ a b : ExitKey, a ≠ .transportFailure → a ≠ .stUNKNOWN →
      b ≠ .transportFailure → b ≠ .stUNKNOWN →
      assignedCode a = assignedCode b → a = b) ∧
    (∀ a : ExitKey, assignedCode a ≠ 0) ∧
    assignedCode .transportFailure = assignedCode .unauthorized ∧
    assignedCode .stUNKNOWN = assignedCode .unknownOutcome ∧
    (∀ (et : Option String) (rid : String),
      check_run_status.determine_run_status ⟨"ERRORED", et, rid⟩
        = ec.EXIT_CODE_RUNNING) := by
  refine ⟨by decide, by decide, by decide, by decide, fun et rid => rfl⟩

/-- C2 witness: the amended theorem applied at concrete members. -/
theorem C2_injective_outside_collisions_witness :
    ExitKey.notFound = ExitKey.notFound ∧ assignedCode .stCOMPLETED ≠ 0 :=
  ⟨C2_injective_outside_collisions.1 .notFound .notFound
      (by decide) (by decide) (by decide) (by decide) rfl,
   C2_injective_outside_collisions.2.1 .stCOMPLETED⟩

/-- C3: evaluation at the failing input.  Trigger invocation, valid
project id, API replies 401 with a reason, no wait: `main` saves the
reason (no run id), returns `None` without calling `sys.exit`, and the
module-level bare `main()` call discards the return value, so the process
exits 0 — not the (non-zero) Unauthorized code the claim requires. -/
theorem C3_process_exits_zero_on_401 :
    run_project.main sampleProjectId "tok" "FALSE"
        (some ⟨401, some [("reason", "bad token")]⟩) []
      = ⟨none, some "bad token", some (.ok none), 0, 0⟩ ∧
    run_project.processExit (.ok none) = 0 ∧
    ec.EXIT_CODE_AUTHENTICATION_ERROR ≠ 0 := by
  refine ⟨by decide, rfl, by decide⟩

/-- C4: evaluation at the failing input.  Trigger succeeds (201), wait is
requested, the first status poll replies HTTP 500: `get_run_status`
returns the bare integer `ec.EXIT_CODE_UNKNOWN_ERROR` (there is no
ServerError-specific path in this flow), `determine_run_status`
subscripts that integer and raises `TypeError`, and the process dies with
a traceback (exit status 1), not the ServerError code.  The loop does
stop at once: only 1 of the 2 scripted polls is consumed and no sleep
occurs. -/
theorem C4_poll_500_crashes_with_TypeError :
    run_project.main sampleProjectId "tok" "TRUE"
        (some ⟨201, some [("runId", "78c33d18-170c-44d3-a227-b3194f134f73")]⟩)
        [some ⟨500, some ⟨"", none, ""⟩⟩,
         some ⟨200, some ⟨"COMPLETED", some "t0", "r0"⟩⟩]
      = ⟨some "78c33d18-170c-44d3-a227-b3194f134f73", none,
         some (.error "TypeError"), 0, 1⟩ ∧
    run_project.processExit (.error "TypeError") = 1 ∧
    ec.EXIT_CODE_HEX_SERVER_ERROR ≠ 1 := by
  refine ⟨by decide, rfl, by decide⟩

/-- C5: evaluation at the failing input.  With the malformed id
`"not-a-uuid"`, neither flow depends on any scripted HTTP exchange (no
network call is made), but the trigger entry point does not fail with the
InvalidIdentifier exit code: `run_project` returns the bare integer
`ec.EXIT_CODE_INVALID_PROJECT_ID` and `main` reads `.status_code` on it,
raising `AttributeError` (process exit status 1).  The status-check entry
point does exit with the InvalidIdentifier code. -/
theorem C5_invalid_id_trigger_crashes :
    (∀ (tok wait : String) (trigResp : Option (HttpResp (List (String × String))))
        (polls : List (Option (HttpResp StatusBody))),
      run_project.main "not-a-uuid" tok wait trigResp polls
        = ⟨none, none, some (.error "AttributeError"), 0, 0⟩) ∧
    (∀ (tok stored : String) (resp : Option (HttpResp StatusBody)),
      check_run_status.main "not-a-uuid" tok none stored resp
        = .exited ec.EXIT_CODE_INVALID_PROJECT_ID) ∧
    ec.EXIT_CODE_INVALID_PROJECT_ID ≠ 1 := by
  have h : is_valid_uuid (pyStrip "not-a-uuid") = false := by decide
  refine ⟨?_, ?_, by decide⟩
  · intro tok wait trigResp polls
    simp [run_project.main, run_project.run_project, h]
  · intro tok stored resp
    simp [check_run_status.main, check_run_status.get_run_status, h]

/-- C5 witness: the evaluation theorem applied at concrete arguments. -/
theorem C5_invalid_id_trigger_crashes_witness :
    run_project.main "not-a-uuid" "tok" "FALSE" none []
      = ⟨none, none, some (.error "AttributeError"), 0, 0⟩ :=
  C5_invalid_id_trigger_crashes.1 "tok" "FALSE" none []

/-- Helper: the wait loop stops at once, consuming nothing and sleeping
nothing, whenever the incoming exit code is neither the RUNNING nor the
PENDING code. -/
theorem wait_loop_stop (pid tok : String) (c : Nat)
    (polls : List (Option (HttpResp StatusBody)))
    (h1 : c ≠ ec.EXIT_CODE_RUNNING) (h2 : c ≠ ec.EXIT_CODE_PENDING) :
    run_project.wait_loop pid tok c polls = ⟨some (.ok c), 0, 0⟩ := by
  cases polls with
  | nil => simp [run_project.wait_loop, h1, h2]
  | cons p rest => simp [run_project.wait_loop, h1, h2]

/-- Helper: every poll the wait loop issues is preceded by exactly one
60-second sleep, so total sleep time is 60 times the number of polls. -/
theorem wait_loop_sleep_account (pid tok : String) :
    ∀ (polls : List (Option (HttpResp StatusBody))) (c : Nat),
      (run_project.wait_loop pid tok c polls).sleepTime
        = 60 * (run_project.wait_loop pid tok c polls).pollsUsed := by
  intro polls
  induction polls with
  | nil =>
    intro c
    by_cases h : c = ec.EXIT_CODE_RUNNING ∨ c = ec.EXIT_CODE_PENDING <;>
      simp [run_project.wait_loop, h]
  | cons p rest ih =>
    intro c
    by_cases h : c = ec.EXIT_CODE_RUNNING ∨ c = ec.EXIT_CODE_PENDING
    · simp only [run_project.wait_loop, h, if_true]
      cases hd : run_project.determine_run_status_dyn
          (run_project.get_run_status pid tok p) with
      | ok c' => simpa using by rw [ih c']; ring
      | exited cd => simp
      | error m => simp
    · simp [run_project.wait_loop, h]

/-- C6: the wait loop of `main` in `run_project.py` re-polls exactly when
the previous classification produced the PENDING or RUNNING code; each
repeat is preceded by a fixed 60-unit sleep; any other classification
stops the loop with that code; and a poll whose classification raises
(which is what happens on every transport or API-level error in this
flow, since `get_run_status` then returns a bare integer) terminates the
loop after that single poll, never consuming the remaining scripted
responses.  The final conjunct identifies the PENDING/RUNNING codes with
exactly the vendor statuses "PENDING"/"RUNNING". -/
theorem C6_wait_loop_retry_discipline (pid tok : String) (c : Nat)
    (p : Option (HttpResp StatusBody))
    (rest polls : List (Option (HttpResp StatusBody))) :
    ((c ≠ ec.EXIT_CODE_RUNNING ∧ c ≠ ec.EXIT_CODE_PENDING) →
      run_project.wait_loop pid tok c polls = ⟨some (.ok c), 0, 0⟩) ∧
    ((c = ec.EXIT_CODE_RUNNING ∨ c = ec.EXIT_CODE_PENDING) →
      (run_project.wait_loop pid tok c (p :: rest)).pollsUsed ≥ 1) ∧
    ((run_project.wait_loop pid tok c polls).sleepTime
        = 60 * (run_project.wait_loop pid tok c polls).pollsUsed) ∧
    (∀ m, (c = ec.EXIT_CODE_RUNNING ∨ c = ec.EXIT_CODE_PENDING) →
      run_project.determine_run_status_dyn (run_project.get_run_status pid tok p)
        = .error m →
      run_project.wait_loop pid tok c (p :: rest) = ⟨some (.error m), 60, 1⟩) ∧
    (∀ c', (c = ec.EXIT_CODE_RUNNING ∨ c = ec.EXIT_CODE_PENDING) →
      run_project.determine_run_status_dyn (run_project.get_run_status pid tok p)
        = .ok c' →
      c' ≠ ec.EXIT_CODE_RUNNING → c' ≠ ec.EXIT_CODE_PENDING →
      run_project.wait_loop pid tok c (p :: rest) = ⟨some (.ok c'), 60, 1⟩) ∧
    (∀ b : StatusBody,
      (run_project.determine_run_status b = ec.EXIT_CODE_RUNNING ↔
        b.status = "RUNNING") ∧
      (run_project.determine_run_status b = ec.EXIT_CODE_PENDING ↔
        b.status = "PENDING")) := by
  refine ⟨?_, ?_, wait_loop_sleep_account pid tok polls c, ?_, ?_, ?_⟩
  · intro h
    exact wait_loop_stop pid tok c polls h.1 h.2
  · intro h
    simp only [run_project.wait_loop, h, if_true]
    cases hd : run_project.determine_run_status_dyn
        (run_project.get_run_status pid tok p) with
    | ok c' => simp
    | exited cd => simp
    | error m => simp
  · intro m h hd
    simp [run_project.wait_loop, h, hd]
  · intro c' h hd h1 h2
    simp only [run_project.wait_loop, h, if_true, hd]
    rw [wait_loop_stop pid tok c' rest h1 h2]
  · intro b
    unfold run_project.determine_run_status
    constructor
    · constructor
      · intro hh
        by_cases e1 : b.status = "COMPLETED"
        · rw [if_pos e1] at hh; exact absurd hh (by decide)
        rw [if_neg e1] at hh
        by_cases e2 : b.status = "KILLED"
        · rw [if_pos e2] at hh; exact absurd hh (by decide)
        rw [if_neg e2] at hh
        by_cases e3 : b.status = "PENDING"
        · rw [if_pos e3] at hh; exact absurd hh (by decide)
        rw [if_neg e3] at hh
        by_cases e4 : b.status = "RUNNING"
        · exact e4
        rw [if_neg e4] at hh
        by_cases e5 : b.status = "UNABLE_TO_ALLOCATE_KERNEL"
        · rw [if_pos e5] at hh; exact absurd hh (by decide)
        rw [if_neg e5] at hh
        by_cases e6 : b.status = "ERRORED"
        · rw [if_pos e6] at hh; exact absurd hh (by decide)
        rw [if_neg e6] at hh
        exact absurd hh (by decide)
      · intro hh
        simp [hh]
    · constructor
      · intro hh
        by_cases e1 : b.status = "COMPLETED"
        · rw [if_pos e1] at hh; exact absurd hh (by decide)
        rw [if_neg e1] at hh
        by_cases e2 : b.status = "KILLED"
        · rw [if_pos e2] at hh; exact absurd hh (by decide)
        rw [if_neg e2] at hh
        by_cases e3 : b.status = "PENDING"
        · exact e3
        rw [if_neg e3] at hh
        by_cases e4 : b.status = "RUNNING"
        · rw [if_pos e4] at hh; exact absurd hh (by decide)
        rw [if_neg e4] at hh
        by_cases e5 : b.status = "UNABLE_TO_ALLOCATE_KERNEL"
        · rw [if_pos e5] at hh; exact absurd hh (by decide)
        rw [if_neg e5] at hh
        by_cases e6 : b.status = "ERRORED"
        · rw [if_pos e6] at hh; exact absurd hh (by decide)
        rw [if_neg e6] at hh
        exact absurd hh (by decide)
      · intro hh
        simp [hh]

/-- C6 witness: at the COMPLETED code the loop stops immediately with no
sleep and no further poll, even with a scripted response available; at
the RUNNING code a scripted TypeError-producing poll stops the loop after
exactly one poll and one sleep. -/
theorem C6_wait_loop_retry_discipline_witness :
    run_project.wait_loop sampleProjectId "tok" ec.EXIT_CODE_COMPLETED
        [some ⟨200, some ⟨"RUNNING", none, "r"⟩⟩]
      = ⟨some (.ok ec.EXIT_CODE_COMPLETED), 0, 0⟩ ∧
    run_project.wait_loop sampleProjectId "tok" ec.EXIT_CODE_RUNNING
        [some ⟨500, some ⟨"", none, ""⟩⟩, some ⟨200, some ⟨"RUNNING", none, "r"⟩⟩]
      = ⟨some (.error "TypeError"), 60, 1⟩ :=
  ⟨(C6_wait_loop_retry_discipline sampleProjectId "tok" ec.EXIT_CODE_COMPLETED
      none [] [some ⟨200, some ⟨"RUNNING", none, "r"⟩⟩]).1 (by decide),
   (C6_wait_loop_retry_discipline sampleProjectId "tok" ec.EXIT_CODE_RUNNING
      (some ⟨500, some ⟨"", none, ""⟩⟩) [some ⟨200, some ⟨"RUNNING", none, "r"⟩⟩]
      []).2.2.2.1 "TypeError" (by decide) (by decide)⟩

/-- C7 counterexample.  The claim says validation succeeds only on exact
UUID v4 matches, rejecting strings with extra trailing characters.  But
Python's `$` also matches just before a string-final newline, so
`is_valid_uuid` accepts a well-formed UUID followed by a newline, which
is not an exact match. -/
theorem C7_trailing_newline_accepted :
    is_valid_uuid "550e8400-e29b-41d4-a716-446655440000\n" = true ∧
    uuidV4ExactMatch "550e8400-e29b-41d4-a716-446655440000\n" = false := by
  refine ⟨by decide, by decide⟩

/-- C7 amended.  For all strings `s`, validation succeeds iff `s` matches
the UUID v4 pattern exactly (8-4-4-4-12 hex digits, fixed dashes, version
nibble `4`, variant nibble in `[89ABab]`) or `s` is such an exact match
followed by one trailing newline character; no other string is accepted. -/
theorem C7_uuid_validation_characterised (s : String) :
    is_valid_uuid s = true ↔
      (uuidV4ExactMatch s = true ∨
        ∃ t : String, uuidV4ExactMatch t = true ∧ s = t ++ "\n") := by
  constructor
  · intro h
    unfold is_valid_uuid at h
    cases hm : matchUUIDBody s.data with
    | none => rw [hm] at h; simp at h
    | some r =>
      rw [hm] at h
      simp only [Bool.or_eq_true, beq_iff_eq] at h
      rcases h with h | h
      · left
        unfold uuidV4ExactMatch
        rw [hm]
        simp [h]
      · right
        obtain ⟨p, hp, hall⟩ := matchUUIDBody_splits s.data r hm
        refine ⟨⟨p⟩, ?_, ?_⟩
        · unfold uuidV4ExactMatch
          have hmp : matchUUIDBody p = some [] := by
            have hx := hall []
            rwa [List.append_nil] at hx
          rw [show (String.mk p).data = p from rfl, hmp]
          simp
        · apply String.ext
          rw [String.data_append, hp, h]
  · intro h
    rcases h with h | ⟨t, ht, rfl⟩
    · unfold uuidV4ExactMatch at h
      unfold is_valid_uuid
      cases hm : matchUUIDBody s.data with
      | none => rw [hm] at h; simp at h
      | some r =>
        rw [hm] at h
        simp only [beq_iff_eq] at h
        simp [h]
    · unfold uuidV4ExactMatch at ht
      cases hm : matchUUIDBody t.data with
      | none => rw [hm] at ht; simp at ht
      | some r =>
        rw [hm] at ht
        simp only [beq_iff_eq] at ht
        obtain ⟨p, hp, hall⟩ := matchUUIDBody_splits t.data r hm
        unfold is_valid_uuid
        have hdata : (t ++ "\n").data = p ++ ['\n'] := by
          rw [String.data_append, hp, ht, List.append_nil]
        rw [hdata, hall ['\n']]
        simp

/-- C7 witness: the amended characterisation applied at a concrete
accepted string with a trailing newline. -/
theorem C7_uuid_validation_characterised_witness :
    uuidV4ExactMatch "550e8400-e29b-41d4-a716-446655440000" = true ∨
      ∃ t : String, uuidV4ExactMatch t = true ∧
        "550e8400-e29b-41d4-a716-446655440000" = t ++ "\n" :=
  (C7_uuid_validation_characterised "550e8400-e29b-41d4-a716-446655440000").mp
    (by decide)

/-- C8: evaluation at the failing input.  The vendor status
`"WEIRD_NEW_STATE"` (outside the closed set) is indeed classified as the
unknown-error code and is terminal — in the trigger flow's wait loop it
stops after the one poll that produced it, with no sleep and with the
second scripted response left unconsumed, and `main` returns that code —
but the module-level bare `main()` call discards the return value, so the
process exits 0, not the UNKNOWN code the claim requires (the same
missing-`sys.exit` slip as C3).  The standalone status-check entry point
does exit the process with the UNKNOWN code. -/
theorem C8_unknown_status_exit_code_discarded :
    run_project.main sampleProjectId "tok" "TRUE"
        (some ⟨201, some [("runId", "r1")]⟩)
        [some ⟨200, some ⟨"WEIRD_NEW_STATE", none, "r1"⟩⟩,
         some ⟨200, some ⟨"RUNNING", none, "r1"⟩⟩]
      = ⟨some "r1", none, some (.ok (some ec.EXIT_CODE_UNKNOWN_ERROR)), 0, 1⟩ ∧
    run_project.processExit (.ok (some ec.EXIT_CODE_UNKNOWN_ERROR)) = 0 ∧
    ec.EXIT_CODE_UNKNOWN_ERROR ≠ 0 ∧
    run_project.determine_run_status ⟨"WEIRD_NEW_STATE", none, "r1"⟩
      = ec.EXIT_CODE_UNKNOWN_ERROR ∧
    check_run_status.determine_run_status ⟨"WEIRD_NEW_STATE", none, "r1"⟩
      = ec.EXIT_CODE_UNKNOWN_ERROR ∧
    check_run_status.main sampleProjectId "tok" (some "r1") "stored"
        (some ⟨200, some ⟨"WEIRD_NEW_STATE", none, "r"⟩⟩)
      = .exited ec.EXIT_CODE_UNKNOWN_ERROR := by
  refine ⟨by decide, rfl, by decide, by decide, by decide, by decide⟩

/-- C9 counterexample.  The claim says every non-Success response with a
`reason` key in a non-empty body gets that value attached — including 429
and 500.  But `handle_api_response` consults the body only for 401, 404
and 422; a 429 reply whose body carries a reason is degraded to the
literal `"unknown"`. -/
theorem C9_429_reason_discarded :
    run_project.handle_api_response 429 [("reason", "slow down")]
      = ⟨ec.EXIT_CODE_UNKNOWN_ERROR, [("reason", "unknown")]⟩ ∧
    (run_project.handle_api_response 429
        [("reason", "slow down")]).response_json.lookup "reason"
      = some "unknown" := by
  refine ⟨by decide, by decide⟩

/-- C9 amended.  For a non-201 trigger response: when the status is 401,
404 or 422, the body is attached unchanged if it is a non-empty dict
containing a `reason` key, and the literal `"unknown"` reason is attached
otherwise; for every other status (429 and 500 included) the literal
`"unknown"` reason is attached unconditionally and the body is ignored. -/
theorem C9_reason_attachment (sc : Nat) (body : List (String × String))
    (hns : sc ≠ 201) :
    ((sc = 401 ∨ sc = 404 ∨ sc = 422) →
      (run_project.has_reason body = true →
        run_project.handle_api_response sc body = ⟨sc, body⟩) ∧
      (run_project.has_reason body = false →
        run_project.handle_api_response sc body
          = ⟨ec.EXIT_CODE_UNKNOWN_ERROR, [("reason", "unknown")]⟩)) ∧
    (¬(sc = 401 ∨ sc = 404 ∨ sc = 422) →
      run_project.handle_api_response sc body
        = ⟨ec.EXIT_CODE_UNKNOWN_ERROR, [("reason", "unknown")]⟩) := by
  constructor
  · intro hin
    constructor
    · intro hr
      simp [run_project.handle_api_response, hns, hin, hr]
    · intro hr
      simp [run_project.handle_api_response, hns, hin, hr]
  · intro hout
    simp [run_project.handle_api_response, hns, hout]

/-- C9 witness: the amended theorem applied at a 404 with a reason-bearing
body. -/
theorem C9_reason_attachment_witness :
    run_project.handle_api_response 404 [("reason", "nope")]
      = ⟨404, [("reason", "nope")]⟩ :=
  ((C9_reason_attachment 404 [("reason", "nope")] (by decide)).1
    (by decide)).1 (by decide)

/-- Helper: whatever `handle_api_response` produces for a non-201 status
has a non-201 status code itself and a body in which `reason` is present
(either the original reason-bearing body or the literal unknown one). -/
theorem handle_api_response_ne_201 (sc : Nat) (j : List (String × String))
    (h : sc ≠ 201) :
    (run_project.handle_api_response sc j).status_code ≠ 201 ∧
    ∃ rsn, (run_project.handle_api_response sc j).response_json.lookup "reason"
      = some rsn := by
  unfold run_project.handle_api_response
  rw [if_neg h]
  by_cases hin : sc = 401 ∨ sc = 404 ∨ sc = 422
  · rw [if_pos hin]
    by_cases hr : run_project.has_reason j = true
    · rw [if_pos hr]
      refine ⟨h, ?_⟩
      unfold run_project.has_reason at hr
      have hs := (Bool.and_eq_true _ _).mp hr |>.2
      exact Option.isSome_iff_exists.mp hs
    · rw [if_neg hr]
      exact ⟨by decide, "unknown", by decide⟩
  · rw [if_neg hin]
    exact ⟨by decide, "unknown", by decide⟩

/-- C10: in `main` of `run_project.py` the local `run_id` is assigned only
in the 201 branch (witnessed by `runIdSaved = none` here), yet the
wait-for-completion branch reads it unconditionally; so whenever the
trigger yields any non-201 outcome with a parsed body and waiting is
requested, the wait branch raises `UnboundLocalError` instead of reaching
the mapped error exit code. -/
theorem C10_run_id_unbound_in_wait_branch (pid tok wait : String)
    (r : HttpResp (List (String × String))) (j : List (String × String))
    (polls : List (Option (HttpResp StatusBody)))
    (hv : is_valid_uuid (pyStrip pid) = true)
    (hb : r.body = some j) (h201 : r.status_code ≠ 201)
    (hw : pyUpper wait = "TRUE") :
    (run_project.main pid tok wait (some r) polls).result
      = some (.error "UnboundLocalError") ∧
    (run_project.main pid tok wait (some r) polls).runIdSaved = none := by
  obtain ⟨hne, rsn, hrsn⟩ := handle_api_response_ne_201 r.status_code j h201
  have hrp : run_project.run_project (pyStrip pid) (pyStrip tok) (some r)
      = .ok (.resp (run_project.handle_api_response r.status_code j)) := by
    simp [run_project.run_project, hv, hb, hne]
  simp [run_project.main, hrp, hne, hrsn, hw]

/-- C10 witness: concrete 401 trigger reply with waiting requested. -/
theorem C10_run_id_unbound_in_wait_branch_witness :
    (run_project.main sampleProjectId "tok" "TRUE"
        (some ⟨401, some [("reason", "x")]⟩) []).result
      = some (.error "UnboundLocalError") :=
  (C10_run_id_unbound_in_wait_branch sampleProjectId "tok" "TRUE"
    ⟨401, some [("reason", "x")]⟩ [("reason", "x")] [] (by decide) rfl
    (by decide) (by decide)).1
